import Mathlib

/-!
Verification development for the ReasonOS semantic-graph pipeline
(`backend/app/services/semantic_graph/`): a shallow embedding of the
parser data model, the graph builder, the analyzer, the impact analyzer,
the risk calculator and the orchestrator, together with theorems about
the behaviour of these components.

Python dictionaries are modelled as insertion-ordered association lists
(`dictSet` updates in place, appending new keys at the end, exactly like
CPython dicts); Python lists are Lean lists; `None` is `Option.none`;
raised exceptions are `Except.error`.
-/

namespace ReasonOS

/-! ## Insertion-ordered dictionaries (CPython dict semantics) -/

def dictSet (m : List (String × α)) (k : String) (v : α) : List (String × α) :=
  match m with
  | [] => [(k, v)]
  | (k1, v1) :: rest => if k1 = k then (k, v) :: rest else (k1, v1) :: dictSet rest k v

def dictGet (m : List (String × α)) (k : String) : Option α :=
  match m with
  | [] => none
  | (k1, v1) :: rest => if k1 = k then some v1 else dictGet rest k

def dictGetD (m : List (String × α)) (k : String) (d : α) : α :=
  (dictGet m k).getD d

theorem dictGet_set (m : List (String × α)) (k k1 : String) (v : α) :
    dictGet (dictSet m k v) k1 = if k = k1 then some v else dictGet m k1 := by
  induction m with
  | nil => simp [dictSet, dictGet]
  | cons p rest ih =>
    obtain ⟨k2, v2⟩ := p
    by_cases h2 : k2 = k
    · subst h2
      by_cases h1 : k2 = k1 <;> simp [dictSet, dictGet, h1]
    · by_cases h1 : k2 = k1
      · subst h1
        simp [dictSet, dictGet, h2, Ne.symm h2]
      · simp [dictSet, dictGet, h2, h1, ih]

theorem dictGet_set_self (m : List (String × α)) (k : String) (v : α) :
    dictGet (dictSet m k v) k = some v := by
  simp [dictGet_set]

theorem dictGet_set_ne (m : List (String × α)) {k k1 : String} (v : α) (h : k ≠ k1) :
    dictGet (dictSet m k v) k1 = dictGet m k1 := by
  simp [dictGet_set, h]

theorem dictGet_set_isSome (m : List (String × α)) (k k1 : String) (v : α)
    (h : (dictGet m k1).isSome) : (dictGet (dictSet m k v) k1).isSome := by
  rw [dictGet_set]
  by_cases hk : k = k1 <;> simp [hk, h]

theorem dictGet_mem {m : List (String × α)} {k : String} {v : α}
    (h : dictGet m k = some v) : (k, v) ∈ m := by
  induction m with
  | nil => simp [dictGet] at h
  | cons p rest ih =>
    obtain ⟨k1, v1⟩ := p
    by_cases h1 : k1 = k
    · subst h1
      simp [dictGet] at h
      simp [h]
    · simp [dictGet, h1] at h
      exact List.mem_cons_of_mem _ (ih h)

theorem dictGet_pred {P : α → Prop} {m : List (String × α)}
    (hm : ∀ k v, dictGet m k = some v → P v) {k : String} {w : α} (hw : P w) :
    ∀ k1 v, dictGet (dictSet m k w) k1 = some v → P v := by
  intro k1 v h
  rw [dictGet_set] at h
  by_cases hk : k = k1
  · simp [hk] at h; exact h ▸ hw
  · simp [hk] at h; exact hm k1 v h

/-! ## String and path helpers

`strLower` models Python `str.lower()` (ASCII suffices for this code base),
`strContainsSub s pat` models Python `pat in s`, `pathBasename` models
`Path(p).name` and `pathStem` models `Path(p).stem` (the final path
component, minus its last suffix when a dot occurs strictly inside it). -/

def strLower (s : String) : String := String.mk (s.data.map Char.toLower)

def isPrefixList (pat s : List Char) : Bool :=
  match pat, s with
  | [], _ => true
  | _ :: _, [] => false
  | p :: ps, c :: cs => p = c && isPrefixList ps cs

def listContains : (s pat : List Char) → Bool
  | [], pat => isPrefixList pat []
  | c :: cs, pat => isPrefixList pat (c :: cs) || listContains cs pat

def strContainsSub (s pat : String) : Bool := listContains s.data pat.data

def splitOnChar : (cs : List Char) → (sep : Char) → List (List Char)
  | [], _ => [[]]
  | c :: cs, sep =>
    let rest := splitOnChar cs sep
    if c = sep then [] :: rest
    else
      match rest with
      | r :: rs => (c :: r) :: rs
      | [] => [[c]]

def pathBasename (p : String) : String :=
  String.mk (List.getLastD (splitOnChar p.data '/') p.data)

def lastDotIdx (cs : List Char) : Option Nat :=
  List.getLast? ((List.range cs.length).filter (fun i => cs.get? i = some '.'))

def pathStem (p : String) : String :=
  let name := pathBasename p
  let cs := name.data
  match lastDotIdx cs with
  | some i => if 0 < i && i < cs.length - 1 then String.mk (cs.take i) else name
  | none => name

/-! ## Parser data model (`parser.py`) -/

inductive FileType where
  | PYTHON | JAVASCRIPT | TYPESCRIPT | JSX | TSX
deriving DecidableEq, Repr

structure FunctionDefinition where
  name : String
  file_path : String
  line_number : Nat
  end_line : Nat
  parameters : List String
  is_exported : Bool
  is_async : Bool := false
  decorators : List String := []
  docstring : Option String := none
deriving DecidableEq, Repr

structure FunctionCall where
  function_name : String
  file_path : String
  line_number : Nat
  calling_function : Option String := none
  arguments_count : Nat := 0
deriving DecidableEq, Repr

structure ImportStatement where
  imported_names : List String
  source_module : String
  file_path : String
  line_number : Nat
  is_default_import : Bool := false
deriving DecidableEq, Repr

structure ExportStatement where
  exported_names : List String
  file_path : String
  line_number : Nat
  is_default_export : Bool := false
deriving DecidableEq, Repr

structure ParsedFile where
  file_path : String
  file_type : FileType
  functions : List FunctionDefinition
  calls : List FunctionCall
  imports : List ImportStatement
  exports : List ExportStatement
  parse_errors : List String := []
deriving DecidableEq, Repr

/-! ## Graph structure (`graph_builder.py`) -/

inductive NodeType where
  | FUNCTION | CLASS | FILE | MODULE
deriving DecidableEq, Repr

inductive EdgeType where
  | CALLS | IMPORTS | EXPORTS | DEFINES | CONTAINED_IN
deriving DecidableEq, Repr

structure GraphNode where
  id : String
  name : String
  type : NodeType
  file_path : String
  line_number : Nat
  end_line : Nat := 0
  parameters : List String := []
  is_exported : Bool := false
  is_async : Bool := false
  decorators : List String := []
  calls : List String := []
  called_by : List String := []
  imported_from : Option String := none
  imported_in : List String := []
deriving DecidableEq, Repr

structure GraphEdge where
  id : String
  source_id : String
  target_id : String
  edge_type : EdgeType
  file_path : String
  line_number : Nat
  context : Option String := none
deriving DecidableEq, Repr

structure CodeGraph where
  nodes : List (String × GraphNode) := []
  edges : List GraphEdge := []
  total_functions : Nat := 0
  total_files : Nat := 0
  total_calls : Nat := 0
  total_imports : Nat := 0
deriving DecidableEq, Repr

def CodeGraph.add_node (g : CodeGraph) (node : GraphNode) : CodeGraph :=
  let g1 := { g with nodes := dictSet g.nodes node.id node }
  if node.type = NodeType.FUNCTION then
    { g1 with total_functions := g1.total_functions + 1 }
  else if node.type = NodeType.FILE then
    { g1 with total_files := g1.total_files + 1 }
  else g1

def CodeGraph.add_edge (g : CodeGraph) (edge : GraphEdge) : CodeGraph :=
  let g1 := { g with edges := g.edges ++ [edge] }
  if edge.edge_type = EdgeType.CALLS then
    { g1 with total_calls := g1.total_calls + 1 }
  else if edge.edge_type = EdgeType.IMPORTS then
    { g1 with total_imports := g1.total_imports + 1 }
  else g1

def CodeGraph.get_node (g : CodeGraph) (node_id : String) : Option GraphNode :=
  dictGet g.nodes node_id

/-! ## Graph builder (`GraphBuilder`) -/

structure BuilderState where
  graph : CodeGraph := {}
  function_map : List (String × String) := []
deriving Repr

def makeFileId (file_path : String) : String := "file:" ++ pathBasename file_path

def makeFunctionId (file_path func_name : String) : String :=
  pathStem file_path ++ ":" ++ func_name

def createFileNode (g : CodeGraph) (pf : ParsedFile) : CodeGraph :=
  g.add_node
    { id := makeFileId pf.file_path
      name := pathBasename pf.file_path
      type := NodeType.FILE
      file_path := pf.file_path
      line_number := 1 }

def functionNodeOfDef (fd : FunctionDefinition) : GraphNode :=
  { id := makeFunctionId fd.file_path fd.name
    name := fd.name
    type := NodeType.FUNCTION
    file_path := fd.file_path
    line_number := fd.line_number
    end_line := fd.end_line
    parameters := fd.parameters
    is_exported := fd.is_exported
    is_async := fd.is_async
    decorators := fd.decorators }

def addFunctionDef (st : BuilderState) (fd : FunctionDefinition) : BuilderState :=
  let node_id := makeFunctionId fd.file_path fd.name
  let g := st.graph.add_node (functionNodeOfDef fd)
  let fmap := dictSet st.function_map fd.name node_id
  let file_id := makeFileId fd.file_path
  let edge : GraphEdge :=
    { id := file_id ++ "->defines->" ++ node_id
      source_id := file_id
      target_id := node_id
      edge_type := EdgeType.DEFINES
      file_path := fd.file_path
      line_number := fd.line_number }
  { graph := g.add_edge edge, function_map := fmap }

def createFunctionNodes (st : BuilderState) (pf : ParsedFile) : BuilderState :=
  pf.functions.foldl addFunctionDef st

def resolveFunctionId (st : BuilderState) (func_name context_file : String) : Option String :=
  let local_id := makeFunctionId context_file func_name
  if (st.graph.get_node local_id).isSome then some local_id
  else dictGet st.function_map func_name

def addCallEdge (st : BuilderState) (call : FunctionCall) : BuilderState :=
  let source_id :=
    match call.calling_function with
    | some cf => makeFunctionId call.file_path cf
    | none => makeFileId call.file_path
  match resolveFunctionId st call.function_name call.file_path with
  | none => st
  | some target_id =>
    -- Python tests `if source_id and target_id`: truthiness of the strings.
    if source_id.isEmpty || target_id.isEmpty then st
    else
      let edge : GraphEdge :=
        { id := source_id ++ "->calls->" ++ target_id ++ "@" ++ toString call.line_number
          source_id := source_id
          target_id := target_id
          edge_type := EdgeType.CALLS
          file_path := call.file_path
          line_number := call.line_number }
      let g := st.graph.add_edge edge
      let g :=
        match g.get_node source_id with
        | some sn =>
          if target_id ∈ sn.calls then g
          else { g with nodes := dictSet g.nodes source_id { sn with calls := sn.calls ++ [target_id] } }
        | none => g
      { st with graph := g }

def createCallEdges (st : BuilderState) (pf : ParsedFile) : BuilderState :=
  pf.calls.foldl addCallEdge st

def addImportEdge (st : BuilderState) (file_id : String) (imp : ImportStatement)
    (imported_name : String) : BuilderState :=
  match dictGet st.function_map imported_name with
  | none => st
  | some target_id =>
    if target_id.isEmpty then st
    else
      let edge : GraphEdge :=
        { id := file_id ++ "->imports->" ++ target_id ++ "@" ++ toString imp.line_number
          source_id := file_id
          target_id := target_id
          edge_type := EdgeType.IMPORTS
          file_path := imp.file_path
          line_number := imp.line_number
          context := some ("from " ++ imp.source_module) }
      { st with graph := st.graph.add_edge edge }

def createImportEdges (st : BuilderState) (pf : ParsedFile) : BuilderState :=
  let file_id := makeFileId pf.file_path
  pf.imports.foldl
    (fun st1 imp => imp.imported_names.foldl (fun st2 nm => addImportEdge st2 file_id imp nm) st1)
    st

def addExportEdge (st : BuilderState) (pf : ParsedFile) (exp : ExportStatement)
    (exported_name : String) : BuilderState :=
  let file_id := makeFileId pf.file_path
  let func_id := makeFunctionId pf.file_path exported_name
  if (st.graph.get_node func_id).isSome then
    let edge : GraphEdge :=
      { id := file_id ++ "->exports->" ++ func_id ++ "@" ++ toString exp.line_number
        source_id := file_id
        target_id := func_id
        edge_type := EdgeType.EXPORTS
        file_path := pf.file_path
        line_number := exp.line_number }
    { st with graph := st.graph.add_edge edge }
  else st

def createExportEdges (st : BuilderState) (pf : ParsedFile) : BuilderState :=
  pf.exports.foldl
    (fun st1 exp =>
      exp.exported_names.foldl (fun st2 nm => addExportEdge st2 pf exp nm) st1)
    st

def reverseStep (nodes : List (String × GraphNode)) (edge : GraphEdge) :
    List (String × GraphNode) :=
  if edge.edge_type = EdgeType.CALLS then
    match dictGet nodes edge.target_id with
    | some tn =>
      if edge.source_id ∈ tn.called_by then nodes
      else dictSet nodes edge.target_id { tn with called_by := tn.called_by ++ [edge.source_id] }
    | none => nodes
  else if edge.edge_type = EdgeType.IMPORTS then
    match dictGet nodes edge.target_id with
    | some tn =>
      if edge.file_path ∈ tn.imported_in then nodes
      else dictSet nodes edge.target_id { tn with imported_in := tn.imported_in ++ [edge.file_path] }
    | none => nodes
  else nodes

def buildReverseRelationships (g : CodeGraph) : CodeGraph :=
  { g with nodes := g.edges.foldl reverseStep g.nodes }

def buildPhases (parsed_files : List ParsedFile) : BuilderState :=
  let st : BuilderState := {}
  let st := { st with graph := parsed_files.foldl createFileNode st.graph }
  let st := parsed_files.foldl createFunctionNodes st
  let st := parsed_files.foldl createCallEdges st
  let st := parsed_files.foldl createImportEdges st
  parsed_files.foldl createExportEdges st

def buildGraphState (parsed_files : List ParsedFile) : BuilderState :=
  let st := buildPhases parsed_files
  { st with graph := buildReverseRelationships st.graph }

def buildGraph (parsed_files : List ParsedFile) : CodeGraph :=
  (buildGraphState parsed_files).graph

/-! ## Analyzer (`analyzer.py`)

`_get_code_context` reads source files from disk; it is modelled by a
context oracle `ctx : String → Nat → String` passed to the index builder
(the analyzer only ever stores its result in `context` fields). -/

inductive UsageType where
  | DEFINITION | EXPORT | IMPORT | CALL | TEST
deriving DecidableEq, Repr

structure UsageLocation where
  usage_type : UsageType
  file_path : String
  line_number : Nat
  context : String
  containing_function : Option String := none
deriving DecidableEq, Repr

structure GraphIndexes where
  function_usages : List (String × List UsageLocation) := []
  file_functions : List (String × List String) := []
  function_calls : List (String × List String) := []
  function_called_by : List (String × List String) := []
  exported_functions : List (String × String) := []
  imported_functions : List (String × List (String × Nat)) := []
deriving DecidableEq, Repr

structure UsageReport where
  function_name : String
  node_id : String
  definition : Option UsageLocation := none
  exports : List UsageLocation := []
  imports : List UsageLocation := []
  calls : List UsageLocation := []
  tests : List UsageLocation := []
  total_usages : Nat := 0
  files_affected : List String := []
deriving DecidableEq, Repr

def dictAppend (m : List (String × List α)) (k : String) (v : α) : List (String × List α) :=
  dictSet m k (dictGetD m k [] ++ [v])

def buildFileFunctionsIndex (g : CodeGraph) : List (String × List String) :=
  g.nodes.foldl
    (fun acc kn =>
      if kn.2.type = NodeType.FUNCTION then dictAppend acc kn.2.file_path kn.1 else acc)
    []

def buildCallIndexes (g : CodeGraph) :
    List (String × List String) × List (String × List String) :=
  g.edges.foldl
    (fun acc e =>
      if e.edge_type = EdgeType.CALLS then
        (dictAppend acc.1 e.source_id e.target_id, dictAppend acc.2 e.target_id e.source_id)
      else acc)
    ([], [])

def buildNodeUsages (g : CodeGraph) (ctx : String → Nat → String)
    (node_id : String) (node : GraphNode) : List UsageLocation :=
  let defU : UsageLocation :=
    { usage_type := UsageType.DEFINITION
      file_path := node.file_path
      line_number := node.line_number
      context := ctx node.file_path node.line_number }
  let exps :=
    (g.edges.filter (fun e => e.target_id = node_id ∧ e.edge_type = EdgeType.EXPORTS)).map
      (fun e =>
        { usage_type := UsageType.EXPORT
          file_path := e.file_path
          line_number := e.line_number
          context := ctx e.file_path e.line_number : UsageLocation })
  let imps :=
    node.imported_in.flatMap (fun import_file =>
      (g.edges.filter
        (fun e => e.target_id = node_id ∧ e.edge_type = EdgeType.IMPORTS ∧
                  e.file_path = import_file)).map
        (fun e =>
          { usage_type := UsageType.IMPORT
            file_path := e.file_path
            line_number := e.line_number
            context := ctx e.file_path e.line_number : UsageLocation }))
  let callUs :=
    (g.edges.filter (fun e => e.target_id = node_id ∧ e.edge_type = EdgeType.CALLS)).map
      (fun e =>
        { usage_type :=
            if strContainsSub (strLower e.file_path) "test" then UsageType.TEST
            else UsageType.CALL
          file_path := e.file_path
          line_number := e.line_number
          context := ctx e.file_path e.line_number
          containing_function := (g.get_node e.source_id).map GraphNode.name : UsageLocation })
  defU :: (exps ++ imps ++ callUs)

def buildUsageIndex (g : CodeGraph) (ctx : String → Nat → String) :
    List (String × List UsageLocation) :=
  g.nodes.foldl
    (fun acc kn =>
      if kn.2.type = NodeType.FUNCTION then
        let us := buildNodeUsages g ctx kn.1 kn.2
        dictSet (dictSet acc kn.2.name us) kn.1 us
      else acc)
    []

def buildExportedFunctionsIndex (g : CodeGraph) : List (String × String) :=
  g.nodes.foldl
    (fun acc kn =>
      if kn.2.type = NodeType.FUNCTION ∧ kn.2.is_exported then dictSet acc kn.2.name kn.1
      else acc)
    []

def createIndexes (g : CodeGraph) (ctx : String → Nat → String) : GraphIndexes :=
  let callIdx := buildCallIndexes g
  { function_usages := buildUsageIndex g ctx
    file_functions := buildFileFunctionsIndex g
    function_calls := callIdx.1
    function_called_by := callIdx.2
    exported_functions := buildExportedFunctionsIndex g }

def getNodeIdByName (idx : GraphIndexes) (function_name : String) : Option String :=
  dictGet idx.exported_functions function_name

def categorizeUsage (report : UsageReport) (usage : UsageLocation) : UsageReport :=
  let report :=
    match usage.usage_type with
    | UsageType.DEFINITION => { report with definition := some usage }
    | UsageType.EXPORT => { report with exports := report.exports ++ [usage] }
    | UsageType.IMPORT => { report with imports := report.imports ++ [usage] }
    | UsageType.CALL => { report with calls := report.calls ++ [usage] }
    | UsageType.TEST => { report with tests := report.tests ++ [usage] }
  if usage.file_path ∈ report.files_affected then report
  else { report with files_affected := report.files_affected ++ [usage.file_path] }

def findAllUsages (idx : GraphIndexes) (function_name : String) : Option UsageReport :=
  match dictGet idx.function_usages function_name with
  | none => none
  | some usages =>
    -- Python `if not usages` also treats an empty list as absent.
    if usages.isEmpty then none
    else
      let report0 : UsageReport :=
        { function_name := function_name
          node_id := (getNodeIdByName idx function_name).getD "" }
      let report := usages.foldl categorizeUsage report0
      some { report with total_usages := usages.length }

def getCallers (idx : GraphIndexes) (function_name : String) : List String :=
  match getNodeIdByName idx function_name with
  | none => []
  | some node_id => dictGetD idx.function_called_by node_id []

def getCalls (idx : GraphIndexes) (function_name : String) : List String :=
  match getNodeIdByName idx function_name with
  | none => []
  | some node_id => dictGetD idx.function_calls node_id []

/-! ## Impact analyzer (`impact_analyzer.py`) -/

inductive CriticalityLevel where
  | CRITICAL_PATH | SECONDARY | TERTIARY | NON_CRITICAL
deriving DecidableEq, Repr

inductive RiskLevel where
  | LOW | MEDIUM | HIGH | CRITICAL
deriving DecidableEq, Repr

structure ModuleUsage where
  module_name : String
  file_path : String
  criticality : CriticalityLevel
  definition_count : Nat := 0
  export_count : Nat := 0
  import_count : Nat := 0
  call_count : Nat := 0
  usages : List UsageLocation := []
  risk_description : String := ""
  impact_description : String := ""
deriving DecidableEq, Repr

def ModuleUsage.total_usages (m : ModuleUsage) : Nat := m.usages.length

structure RiskScore where
  critical_path_usages : Nat := 0
  secondary_usages : Nat := 0
  tertiary_usages : Nat := 0
  non_critical_usages : Nat := 0
  total_score : Nat := 0
  risk_level : RiskLevel := RiskLevel.LOW
  critical_points : Nat := 0
  secondary_points : Nat := 0
  tertiary_points : Nat := 0
  non_critical_points : Nat := 0
deriving DecidableEq, Repr

def RiskScore.calculate (s : RiskScore) : RiskScore :=
  let cp := s.critical_path_usages * 10
  let sp := s.secondary_usages * 5
  let tp := s.tertiary_usages * 2
  let np := s.non_critical_usages * 1
  let total := cp + sp + tp + np
  { s with
    critical_points := cp
    secondary_points := sp
    tertiary_points := tp
    non_critical_points := np
    total_score := total
    risk_level :=
      if total ≥ 101 then RiskLevel.CRITICAL
      else if total ≥ 51 then RiskLevel.HIGH
      else if total ≥ 21 then RiskLevel.MEDIUM
      else RiskLevel.LOW }

structure ImpactReport where
  function_name : String
  change_description : String
  modules : List ModuleUsage := []
  risk_score : RiskScore := {}
  revenue_impact_low : String := ""
  revenue_impact_high : String := ""
  affected_users : String := ""
  recovery_time : String := ""
  total_usages : Nat := 0
  total_files : Nat := 0
deriving DecidableEq, Repr

def MODULE_PATTERNS : List (String × CriticalityLevel) :=
  [("checkout", CriticalityLevel.CRITICAL_PATH),
   ("payment", CriticalityLevel.CRITICAL_PATH),
   ("auth", CriticalityLevel.CRITICAL_PATH),
   ("billing", CriticalityLevel.CRITICAL_PATH),
   ("invoice", CriticalityLevel.SECONDARY),
   ("report", CriticalityLevel.SECONDARY),
   ("email", CriticalityLevel.SECONDARY),
   ("notification", CriticalityLevel.SECONDARY),
   ("util", CriticalityLevel.TERTIARY),
   ("helper", CriticalityLevel.TERTIARY),
   ("validate", CriticalityLevel.TERTIARY),
   ("format", CriticalityLevel.TERTIARY),
   ("test", CriticalityLevel.NON_CRITICAL),
   ("spec", CriticalityLevel.NON_CRITICAL),
   ("mock", CriticalityLevel.NON_CRITICAL),
   ("fixture", CriticalityLevel.NON_CRITICAL)]

def findPattern (fpl fnl : String) : List (String × CriticalityLevel) → Option CriticalityLevel
  | [] => none
  | pc :: rest =>
    if strContainsSub fpl pc.1 || strContainsSub fnl pc.1 then some pc.2
    else findPattern fpl fnl rest

def determineCriticality (file_path file_name : String) : CriticalityLevel :=
  match findPattern (strLower file_path) (strLower file_name) MODULE_PATTERNS with
  | some c => c
  | none => CriticalityLevel.SECONDARY

def generateRiskDescription (criticality : CriticalityLevel) (module_name : String)
    (usage_count : Nat) : String :=
  let _ := usage_count
  match criticality with
  | CriticalityLevel.CRITICAL_PATH =>
    "🔴 HIGH - Core " ++ module_name ++
      " logic. If broken: Users can't complete transactions. Impact: Revenue loss"
  | CriticalityLevel.SECONDARY =>
    "🟡 MEDIUM - " ++ module_name ++
      " functionality. If broken: Feature degradation. Impact: User experience affected"
  | CriticalityLevel.TERTIARY =>
    "🟢 LOW - Helper " ++ module_name ++ ". If broken: Minor issues. Impact: Edge cases affected"
  | CriticalityLevel.NON_CRITICAL =>
    "⚪ NONE - " ++ module_name ++ " (tests/dev). If broken: No user impact. Impact: Development only"

def generateImpactDescription (criticality : CriticalityLevel) (module_name : String) : String :=
  let _ := module_name
  match criticality with
  | CriticalityLevel.CRITICAL_PATH =>
    "ALL users affected. Transactions blocked. Revenue loss: $50K-$500K/hour"
  | CriticalityLevel.SECONDARY =>
    "Some users affected. Feature unavailable. Business impact: moderate"
  | CriticalityLevel.TERTIARY =>
    "Few users affected. Edge case failures. Business impact: minimal"
  | CriticalityLevel.NON_CRITICAL =>
    "Developers affected. No customer impact."

def strUpper (s : String) : String := String.mk (s.data.map Char.toUpper)

def createModuleUsage (file_path : String) (usages : List UsageLocation) : ModuleUsage :=
  let file_name := pathStem file_path
  let criticality := determineCriticality file_path file_name
  { module_name := strUpper file_name ++ " MODULE"
    file_path := file_path
    criticality := criticality
    definition_count := (usages.filter (fun u => u.usage_type = UsageType.DEFINITION)).length
    export_count := (usages.filter (fun u => u.usage_type = UsageType.EXPORT)).length
    import_count := (usages.filter (fun u => u.usage_type = UsageType.IMPORT)).length
    call_count := (usages.filter (fun u => u.usage_type = UsageType.CALL)).length
    usages := usages
    risk_description := generateRiskDescription criticality file_name usages.length
    impact_description := generateImpactDescription criticality file_name }

def criticalityOrder (c : CriticalityLevel) : Nat :=
  match c with
  | CriticalityLevel.CRITICAL_PATH => 0
  | CriticalityLevel.SECONDARY => 1
  | CriticalityLevel.TERTIARY => 2
  | CriticalityLevel.NON_CRITICAL => 3

def stableInsertByKey (key : α → Nat) (sorted : List α) (x : α) : List α :=
  match sorted with
  | [] => [x]
  | y :: ys => if key y ≤ key x then y :: stableInsertByKey key ys x else x :: y :: ys

def stableSortByKey (key : α → Nat) (l : List α) : List α :=
  l.foldl (stableInsertByKey key) []

def categorizeByModule (usage_report : UsageReport) : List ModuleUsage :=
  let modules_by_file : List (String × List UsageLocation) :=
    match usage_report.definition with
    | some d => dictAppend [] d.file_path d
    | none => []
  let modules_by_file :=
    (usage_report.exports ++ usage_report.imports ++ usage_report.calls ++
      usage_report.tests).foldl (fun acc u => dictAppend acc u.file_path u) modules_by_file
  let modules := modules_by_file.map (fun kv => createModuleUsage kv.1 kv.2)
  stableSortByKey (fun m => criticalityOrder m.criticality) modules

def tallyUsages (s : RiskScore) (m : ModuleUsage) : RiskScore :=
  let usage_count := m.total_usages
  match m.criticality with
  | CriticalityLevel.CRITICAL_PATH =>
    { s with critical_path_usages := s.critical_path_usages + usage_count }
  | CriticalityLevel.SECONDARY =>
    { s with secondary_usages := s.secondary_usages + usage_count }
  | CriticalityLevel.TERTIARY =>
    { s with tertiary_usages := s.tertiary_usages + usage_count }
  | CriticalityLevel.NON_CRITICAL =>
    { s with non_critical_usages := s.non_critical_usages + usage_count }

def calculateRiskScore (modules : List ModuleUsage) : RiskScore :=
  (modules.foldl tallyUsages {}).calculate

def assessBusinessImpact (report : ImpactReport) (modules : List ModuleUsage)
    (risk_score : RiskScore) : ImpactReport :=
  let critical_modules :=
    modules.filter (fun m => m.criticality = CriticalityLevel.CRITICAL_PATH)
  if critical_modules ≠ [] then
    { report with
      revenue_impact_low := "$50K/hour", revenue_impact_high := "$500K/hour"
      affected_users := "ALL users (100% of transactions)", recovery_time := "3-6 hours" }
  else if risk_score.risk_level = RiskLevel.HIGH then
    { report with
      revenue_impact_low := "$10K/hour", revenue_impact_high := "$100K/hour"
      affected_users := "Many users (30-70% of transactions)", recovery_time := "1-3 hours" }
  else if risk_score.risk_level = RiskLevel.MEDIUM then
    { report with
      revenue_impact_low := "$1K/hour", revenue_impact_high := "$20K/hour"
      affected_users := "Some users (10-30% of transactions)", recovery_time := "0.5-2 hours" }
  else
    { report with
      revenue_impact_low := "$0/hour", revenue_impact_high := "$5K/hour"
      affected_users := "Few users or developers only", recovery_time := "0.5-1 hour" }

def assessChangeImpact (idx : GraphIndexes) (function_name : String)
    (change_description : String := "") : Option ImpactReport :=
  match findAllUsages idx function_name with
  | none => none
  | some usage_report =>
    let report : ImpactReport :=
      { function_name := function_name
        change_description := change_description
        total_usages := usage_report.total_usages
        total_files := usage_report.files_affected.length }
    let modules := categorizeByModule usage_report
    let report := { report with modules := modules }
    let risk_score := calculateRiskScore modules
    let report := { report with risk_score := risk_score }
    some (assessBusinessImpact report modules risk_score)

/-! ## Risk calculator (`risk_calculator.py`)

Python floats are modelled as exact rationals; every constant in this
module is an exact decimal, and the one rounding step (`round(x, 2)`)
never lands on a tie, so the rational model coincides with the float run. -/

inductive FailureMode where
  | MISSED_USAGE | INCONSISTENT_RENAME | TYPE_MISMATCH | TEST_FAILURE | DOCUMENTATION_SYNC
deriving DecidableEq, Repr

inductive DetectionMethod where
  | SEMANTIC_GRAPH | TYPE_CHECKER | TESTS | BUILD_SYSTEM | MANUAL_REVIEW
deriving DecidableEq, Repr

structure FailureModeAnalysis where
  mode : FailureMode
  name : String
  probability_percent : ℚ
  probability_label : String
  impact_description : String
  symptom : String
  detection_method : DetectionMethod
  recovery_time_minutes : Nat
  probability_with_graph : ℚ := 1 / 100
  probability_without_graph : ℚ := 30
deriving DecidableEq, Repr

structure MitigationStrategy where
  failure_mode : FailureMode
  strategy : String
  effectiveness_percent : ℚ
deriving DecidableEq, Repr

structure RiskAssessment where
  function_name : String
  change_type : String
  failure_modes : List FailureModeAnalysis := []
  mitigations : List MitigationStrategy := []
  success_rate_percent : ℚ := 99
deriving DecidableEq, Repr

def analyzeMissedUsage : FailureModeAnalysis :=
  { mode := FailureMode.MISSED_USAGE
    name := "Missed a usage location"
    probability_percent := 1 / 100
    probability_label := "LOW"
    probability_with_graph := 1 / 100
    probability_without_graph := 30
    impact_description := "Code breaks at that location"
    symptom := "Runtime error \"function is not defined\""
    detection_method := DetectionMethod.TESTS
    recovery_time_minutes := 30 }

def analyzeInconsistentRename : FailureModeAnalysis :=
  { mode := FailureMode.INCONSISTENT_RENAME
    name := "Inconsistent renaming"
    probability_percent := 5 / 100
    probability_label := "LOW"
    impact_description := "Some files renamed, others not"
    symptom := "\"function is not defined\" in some modules"
    detection_method := DetectionMethod.TESTS
    recovery_time_minutes := 2 }

def analyzeTypeMismatch : FailureModeAnalysis :=
  { mode := FailureMode.TYPE_MISMATCH
    name := "Type system mismatch"
    probability_percent := 2
    probability_label := "MEDIUM"
    impact_description := "Type checker reports errors"
    symptom := "\"function is not assigned to type X\""
    detection_method := DetectionMethod.TYPE_CHECKER
    recovery_time_minutes := 30 }

def analyzeTestFailure : FailureModeAnalysis :=
  { mode := FailureMode.TEST_FAILURE
    name := "Test expectations wrong"
    probability_percent := 5 / 10
    probability_label := "LOW"
    impact_description := "Tests reference old function name"
    symptom := "\"function is not defined\" in tests"
    detection_method := DetectionMethod.TESTS
    recovery_time_minutes := 10 }

def analyzeDocumentationSync : FailureModeAnalysis :=
  { mode := FailureMode.DOCUMENTATION_SYNC
    name := "Documentation out of sync"
    probability_percent := 50
    probability_label := "HIGH"
    impact_description := "Documentation still references old name"
    symptom := "Developer confusion"
    detection_method := DetectionMethod.MANUAL_REVIEW
    recovery_time_minutes := 30 }

def generateMitigations : List MitigationStrategy :=
  [{ failure_mode := FailureMode.MISSED_USAGE
     strategy := "Use semantic graph to find ALL usages before changing"
     effectiveness_percent := 9999 / 100 },
   { failure_mode := FailureMode.INCONSISTENT_RENAME
     strategy := "Semantic graph ensures all locations updated atomically"
     effectiveness_percent := 9995 / 100 },
   { failure_mode := FailureMode.TYPE_MISMATCH
     strategy := "Run TypeScript type checker before deployment"
     effectiveness_percent := 98 },
   { failure_mode := FailureMode.TEST_FAILURE
     strategy := "Execute full test suite in sandbox before approval"
     effectiveness_percent := 995 / 10 },
   { failure_mode := FailureMode.DOCUMENTATION_SYNC
     strategy := "Human approval process reviews docs during code review"
     effectiveness_percent := 50 }]

def round2 (q : ℚ) : ℚ := (Rat.floor (q * 100 + 1 / 2) : ℚ) / 100

def calculateSuccessRate (failure_modes : List FailureModeAnalysis) : ℚ :=
  let technical_modes :=
    failure_modes.filter (fun fm => fm.mode ≠ FailureMode.DOCUMENTATION_SYNC)
  let total_failure_probability :=
    (technical_modes.map (fun fm => fm.probability_percent)).sum
  round2 (100 - total_failure_probability)

def calculateFailureModes (function_name : String) (change_type : String := "rename") :
    RiskAssessment :=
  let failure_modes :=
    [analyzeMissedUsage, analyzeInconsistentRename, analyzeTypeMismatch,
     analyzeTestFailure, analyzeDocumentationSync]
  { function_name := function_name
    change_type := change_type
    failure_modes := failure_modes
    mitigations := generateMitigations
    success_rate_percent := calculateSuccessRate failure_modes }

/-! ## Orchestrator (`orchestrator.py`)

The orchestrator starts with every component set to `None` and only
populates them during a successful `build_graph`.  A raised
`RuntimeError` is modelled as `Except.error` with the message text. -/

structure Orchestrator where
  repository_path : String
  analyzer : Option GraphIndexes := none
  impact_analyzer : Option GraphIndexes := none
  risk_calculator : Option Unit := none
deriving Repr

def Orchestrator.init (repository_path : String) : Orchestrator :=
  { repository_path := repository_path }

def notBuiltError : String := "Graph not built. Call build_graph() first."

def Orchestrator.find_usages (o : Orchestrator) (function_name : String) :
    Except String (Option UsageReport) :=
  match o.analyzer with
  | none => Except.error notBuiltError
  | some idx => Except.ok (findAllUsages idx function_name)

def Orchestrator.assess_change_impact (o : Orchestrator) (function_name : String)
    (change_description : String := "") : Except String (Option ImpactReport) :=
  match o.impact_analyzer with
  | none => Except.error notBuiltError
  | some idx => Except.ok (assessChangeImpact idx function_name change_description)

def Orchestrator.calculate_risk (o : Orchestrator) (function_name : String)
    (change_type : String := "rename") : Except String RiskAssessment :=
  match o.risk_calculator with
  | none => Except.error notBuiltError
  | some _ => Except.ok (calculateFailureModes function_name change_type)

structure CompleteAnalysis where
  function_name : String
  change_description : String
  usage_report : Option UsageReport := none
  impact_assessment : Option ImpactReport := none
  risk_analysis : Option RiskAssessment := none
  error : Option String := none
deriving Repr

def Orchestrator.get_complete_analysis (o : Orchestrator) (function_name : String)
    (change_description : String := "Refactor") : Except String CompleteAnalysis :=
  match o.analyzer with
  | none => Except.error notBuiltError
  | some _ => do
    let usage_report ← o.find_usages function_name
    match usage_report with
    | none =>
      pure { function_name := function_name
             change_description := change_description
             error := some ("Function not found: " ++ function_name) }
    | some ur => do
      let impact ← o.assess_change_impact function_name change_description
      let risk ← o.calculate_risk function_name "rename"
      pure { function_name := function_name
             change_description := change_description
             usage_report := some ur
             impact_assessment := impact
             risk_analysis := some risk }

/-! ## Shared helper lemmas and concrete evaluation inputs -/

theorem floorRat_eq (q : ℚ) : Rat.floor q = ⌊q⌋ := (Rat.floor_def' q).trans Rat.floor_def.symm

theorem successRateEval :
    calculateSuccessRate
      [analyzeMissedUsage, analyzeInconsistentRename, analyzeTypeMismatch,
       analyzeTestFailure, analyzeDocumentationSync] = 9744 / 100 := by
  simp only [calculateSuccessRate, analyzeMissedUsage, analyzeInconsistentRename,
    analyzeTypeMismatch, analyzeTestFailure, analyzeDocumentationSync, round2,
    List.filter, List.map, List.sum_cons, List.sum_nil]
  norm_num only []
  rw [show ((19489 : ℚ) / 2) = ((19489 : ℤ) : ℚ) / ((2 : ℕ) : ℚ) from by norm_num,
    floorRat_eq, Rat.floor_intCast_div_natCast]
  norm_num

def ctx0 : String → Nat → String := fun _ _ => ""

def matchesPattern (file_path file_name pat : String) : Bool :=
  strContainsSub (strLower file_path) pat || strContainsSub (strLower file_name) pat

def cexC1node : GraphNode :=
  { id := "test_checkout:f"
    name := "f"
    type := NodeType.FUNCTION
    file_path := "test_checkout.py"
    line_number := 1 }

def cexC1graph : CodeGraph := { nodes := [("test_checkout:f", cexC1node)] }

def cexC10n1 : GraphNode :=
  { id := "a:f", name := "f", type := NodeType.FUNCTION, file_path := "a.py",
    line_number := 1, is_exported := false }

def cexC10n2 : GraphNode :=
  { id := "b:f", name := "f", type := NodeType.FUNCTION, file_path := "b.py",
    line_number := 1, is_exported := true }

def cexC10graph : CodeGraph := { nodes := [("a:f", cexC10n1), ("b:f", cexC10n2)] }

def cexC10onlyUnexported : CodeGraph := { nodes := [("a:f", cexC10n1)] }

def emptyUsageReport : UsageReport := { function_name := "", node_id := "?" }

def cexC5pf : ParsedFile :=
  { file_path := "a.py"
    file_type := FileType.PYTHON
    functions :=
      [{ name := "f", file_path := "a.py", line_number := 1, end_line := 3,
         parameters := [], is_exported := true },
       { name := "g", file_path := "a.py", line_number := 5, end_line := 7,
         parameters := [], is_exported := true }]
    calls :=
      [{ function_name := "g", file_path := "a.py", line_number := 2,
         calling_function := some "f" }]
    imports := []
    exports := [] }

def cexC5edge : GraphEdge :=
  { id := "a:f->calls->a:g@2", source_id := "a:f", target_id := "a:g",
    edge_type := EdgeType.CALLS, file_path := "a.py", line_number := 2 }

def cexC6pf : ParsedFile :=
  { file_path := "a.py"
    file_type := FileType.PYTHON
    functions :=
      [{ name := "g", file_path := "a.py", line_number := 1, end_line := 2,
         parameters := [], is_exported := true }]
    calls :=
      [{ function_name := "g", file_path := "a.py", line_number := 5,
         calling_function := some "ghost" }]
    imports := []
    exports := [] }

def cexC6edge : GraphEdge :=
  { id := "a:ghost->calls->a:g@5", source_id := "a:ghost", target_id := "a:g",
    edge_type := EdgeType.CALLS, file_path := "a.py", line_number := 5 }

/-! ## Claim theorems -/

/-- C1, counterexample: for the usage in file `test_checkout.py` — whose path
contains both the NonCritical substring `test` and the CriticalPath substring
`checkout` — `assess_change_impact` assigns the tier CriticalPath, not
NonCritical as the claim states, because the CriticalPath patterns come first
in `MODULE_PATTERNS` and `_determine_criticality` probes them first. -/
theorem C1_counterexample :
    ((assessChangeImpact (createIndexes cexC1graph ctx0) "f" "").map
        (fun r => r.modules.map ModuleUsage.criticality) =
      some [CriticalityLevel.CRITICAL_PATH]) ∧
    determineCriticality "test_checkout.py" "test_checkout" =
      CriticalityLevel.CRITICAL_PATH ∧
    determineCriticality "test_checkout.py" "test_checkout" ≠
      CriticalityLevel.NON_CRITICAL := by
  refine ⟨by decide, by decide, by decide⟩

theorem findPattern_eq_none (fpl fnl : String) (l : List (String × CriticalityLevel))
    (h : ∀ pc ∈ l, (strContainsSub fpl pc.1 || strContainsSub fnl pc.1) = false) :
    findPattern fpl fnl l = none := by
  induction l with
  | nil => rfl
  | cons pc rest ih =>
    have hpc := h pc (List.mem_cons_self pc rest)
    rw [findPattern, hpc]
    simpa using ih (fun q hq => h q (List.mem_cons_of_mem _ hq))

/-- C1, amended: the CriticalPath patterns are probed first, so a file path
containing a CriticalPath substring (`checkout`, `payment`, `auth`, `billing`)
is always classified CriticalPath, even when a NonCritical substring is also
present; and when no pattern of `MODULE_PATTERNS` matches the path or the file
name at all, the tier defaults to Secondary. -/
theorem C1_criticality_precedence (fp fn : String) :
    ((matchesPattern fp fn "checkout" || matchesPattern fp fn "payment" ||
        matchesPattern fp fn "auth" || matchesPattern fp fn "billing") = true →
      determineCriticality fp fn = CriticalityLevel.CRITICAL_PATH) ∧
    ((∀ pc ∈ MODULE_PATTERNS, matchesPattern fp fn pc.1 = false) →
      determineCriticality fp fn = CriticalityLevel.SECONDARY) := by
  constructor
  · intro h
    simp only [Bool.or_eq_true, matchesPattern] at h
    rcases h with ((h | h) | h) | h <;>
      simp [determineCriticality, MODULE_PATTERNS, findPattern, h]
  · intro h
    have hn : findPattern (strLower fp) (strLower fn) MODULE_PATTERNS = none :=
      findPattern_eq_none _ _ _ (fun pc hpc => h pc hpc)
    simp [determineCriticality, hn]

/-- C1, witness: the amended theorem instantiated — `checkout_service.py` is
classified CriticalPath, and `main.py`, matching no pattern, defaults to
Secondary. -/
theorem C1_criticality_precedence_witness :
    determineCriticality "checkout_service.py" "checkout_service" =
      CriticalityLevel.CRITICAL_PATH ∧
    determineCriticality "main.py" "main" = CriticalityLevel.SECONDARY :=
  ⟨(C1_criticality_precedence "checkout_service.py" "checkout_service").1 (by decide),
   (C1_criticality_precedence "main.py" "main").2 (by decide)⟩

def tierUsageSum (lvl : CriticalityLevel) (ms : List ModuleUsage) : Nat :=
  ((ms.filter (fun m => m.criticality = lvl)).map (fun m => m.usages.length)).sum

theorem tally_foldl (ms : List ModuleUsage) (s0 : RiskScore) :
    (ms.foldl tallyUsages s0).critical_path_usages =
      s0.critical_path_usages + tierUsageSum CriticalityLevel.CRITICAL_PATH ms ∧
    (ms.foldl tallyUsages s0).secondary_usages =
      s0.secondary_usages + tierUsageSum CriticalityLevel.SECONDARY ms ∧
    (ms.foldl tallyUsages s0).tertiary_usages =
      s0.tertiary_usages + tierUsageSum CriticalityLevel.TERTIARY ms ∧
    (ms.foldl tallyUsages s0).non_critical_usages =
      s0.non_critical_usages + tierUsageSum CriticalityLevel.NON_CRITICAL ms := by
  induction ms generalizing s0 with
  | nil => simp [tierUsageSum]
  | cons m rest ih =>
    obtain ⟨ih1, ih2, ih3, ih4⟩ := ih (tallyUsages s0 m)
    simp only [List.foldl_cons, ih1, ih2, ih3, ih4]
    cases hm : m.criticality <;>
      simp [tallyUsages, ModuleUsage.total_usages, hm, tierUsageSum, List.filter_cons] <;>
      omega

theorem assessBusinessImpact_preserves (r : ImpactReport) (ms : List ModuleUsage)
    (rs : RiskScore) :
    (assessBusinessImpact r ms rs).risk_score = r.risk_score ∧
    (assessBusinessImpact r ms rs).modules = r.modules := by
  simp only [assessBusinessImpact]
  split_ifs <;> exact ⟨rfl, rfl⟩

/-- C3: for every `ImpactReport` produced by `assess_change_impact`, each tier
count of the risk score is the sum of the usage counts of the report's modules
assigned that tier, the total score is exactly
`critical×10 + secondary×5 + tertiary×2 + non_critical×1`, and the risk level
is Low for 0–20, Medium for 21–50, High for 51–100 and Critical for ≥ 101. -/
theorem C3_risk_score_formula (idx : GraphIndexes) (name desc : String)
    (report : ImpactReport) (h : assessChangeImpact idx name desc = some report) :
    report.risk_score.critical_path_usages =
      tierUsageSum CriticalityLevel.CRITICAL_PATH report.modules ∧
    report.risk_score.secondary_usages =
      tierUsageSum CriticalityLevel.SECONDARY report.modules ∧
    report.risk_score.tertiary_usages =
      tierUsageSum CriticalityLevel.TERTIARY report.modules ∧
    report.risk_score.non_critical_usages =
      tierUsageSum CriticalityLevel.NON_CRITICAL report.modules ∧
    report.risk_score.total_score =
      report.risk_score.critical_path_usages * 10 + report.risk_score.secondary_usages * 5 +
      report.risk_score.tertiary_usages * 2 + report.risk_score.non_critical_usages * 1 ∧
    (report.risk_score.total_score ≤ 20 → report.risk_score.risk_level = RiskLevel.LOW) ∧
    (21 ≤ report.risk_score.total_score ∧ report.risk_score.total_score ≤ 50 →
      report.risk_score.risk_level = RiskLevel.MEDIUM) ∧
    (51 ≤ report.risk_score.total_score ∧ report.risk_score.total_score ≤ 100 →
      report.risk_score.risk_level = RiskLevel.HIGH) ∧
    (101 ≤ report.risk_score.total_score →
      report.risk_score.risk_level = RiskLevel.CRITICAL) := by
  unfold assessChangeImpact at h
  cases hfu : findAllUsages idx name with
  | none => rw [hfu] at h; exact absurd h (by simp)
  | some ur =>
    rw [hfu] at h
    simp only [Option.some.injEq] at h
    obtain ⟨hrs, hms⟩ := assessBusinessImpact_preserves
      { function_name := name, change_description := desc,
        total_usages := ur.total_usages, total_files := ur.files_affected.length,
        modules := categorizeByModule ur, risk_score := calculateRiskScore (categorizeByModule ur) }
      (categorizeByModule ur) (calculateRiskScore (categorizeByModule ur))
    rw [← h]
    rw [hrs, hms]
    simp only []
    obtain ⟨t1, t2, t3, t4⟩ := tally_foldl (categorizeByModule ur) {}
    unfold calculateRiskScore
    simp only [RiskScore.calculate, t1, t2, t3, t4]
    refine ⟨by simp, by simp, by simp, by simp, by simp, ?_, ?_, ?_, ?_⟩ <;>
      · intro hb
        split_ifs <;> first | rfl | omega

/-- C3, witness: the risk-score formula instantiated on the concrete
single-node graph `cexC1graph`. -/
theorem C3_risk_score_formula_witness :
    (assessChangeImpact (createIndexes cexC1graph ctx0) "f" "" =
      some ((assessChangeImpact (createIndexes cexC1graph ctx0) "f" "").getD
        { function_name := "", change_description := "" })) ∧
    ((assessChangeImpact (createIndexes cexC1graph ctx0) "f" "").getD
        { function_name := "", change_description := "" }).risk_score.total_score =
      ((assessChangeImpact (createIndexes cexC1graph ctx0) "f" "").getD
        { function_name := "", change_description := "" }).risk_score.critical_path_usages * 10 +
      ((assessChangeImpact (createIndexes cexC1graph ctx0) "f" "").getD
        { function_name := "", change_description := "" }).risk_score.secondary_usages * 5 +
      ((assessChangeImpact (createIndexes cexC1graph ctx0) "f" "").getD
        { function_name := "", change_description := "" }).risk_score.tertiary_usages * 2 +
      ((assessChangeImpact (createIndexes cexC1graph ctx0) "f" "").getD
        { function_name := "", change_description := "" }).risk_score.non_critical_usages * 1 :=
  ⟨by decide,
   (C3_risk_score_formula (createIndexes cexC1graph ctx0) "f" ""
      ((assessChangeImpact (createIndexes cexC1graph ctx0) "f" "").getD
        { function_name := "", change_description := "" }) (by decide)).2.2.2.2.1⟩

/-- C8: in the Empty state (an orchestrator fresh from `__init__`, before any
successful `build_graph`), the query operations `find_usages`,
`assess_change_impact`, `calculate_risk` and `get_complete_analysis` all fail
with the structured "not built" error rather than returning a silent absent
result. -/
theorem C8_empty_state_queries_fail (repo function_name desc change_type : String) :
    (Orchestrator.init repo).find_usages function_name = Except.error notBuiltError ∧
    (Orchestrator.init repo).assess_change_impact function_name desc =
      Except.error notBuiltError ∧
    (Orchestrator.init repo).calculate_risk function_name change_type =
      Except.error notBuiltError ∧
    (Orchestrator.init repo).get_complete_analysis function_name desc =
      Except.error notBuiltError ∧
    strContainsSub notBuiltError "not built" = true :=
  ⟨rfl, rfl, rfl, rfl, by decide⟩

/-- C9: `calculate_failure_modes` is deterministic and graph-independent — for
every pair of inputs it returns the same fixed table of five failure modes
(Missed-Usage 0.01%, Inconsistent-Rename 0.05%, Type-Mismatch 2%,
Test-Failure 0.5%, Documentation-Sync 50%) and five mitigation strategies,
with an overall success rate of `100 − (0.01 + 0.05 + 2 + 0.5) = 97.44`
(the documentation-sync mode being excluded from the sum). -/
theorem C9_failure_modes_fixed_table (function_name change_type : String) :
    (calculateFailureModes function_name change_type).failure_modes.map
        (fun fm => (fm.mode, fm.probability_percent)) =
      [(FailureMode.MISSED_USAGE, 1 / 100), (FailureMode.INCONSISTENT_RENAME, 5 / 100),
       (FailureMode.TYPE_MISMATCH, 2), (FailureMode.TEST_FAILURE, 5 / 10),
       (FailureMode.DOCUMENTATION_SYNC, 50)] ∧
    (calculateFailureModes function_name change_type).failure_modes =
      (calculateFailureModes "" "").failure_modes ∧
    (calculateFailureModes function_name change_type).mitigations =
      (calculateFailureModes "" "").mitigations ∧
    (calculateFailureModes function_name change_type).mitigations.length = 5 ∧
    (calculateFailureModes function_name change_type).success_rate_percent =
      100 - (1 / 100 + 5 / 100 + 2 + 5 / 10) ∧
    (calculateFailureModes function_name change_type).success_rate_percent = 9744 / 100 := by
  refine ⟨rfl, rfl, rfl, rfl, ?_, ?_⟩
  · show calculateSuccessRate _ = _
    rw [successRateEval]; norm_num
  · exact successRateEval

/-- C7: a name that is not a key of the usage index yields `None` from
`find_all_usages`, and therefore also `None` from `assess_change_impact`;
neither raises an error. -/
theorem C7_unknown_name_absent (idx : GraphIndexes) (name desc : String)
    (h : dictGet idx.function_usages name = none) :
    findAllUsages idx name = none ∧ assessChangeImpact idx name desc = none := by
  have h1 : findAllUsages idx name = none := by simp [findAllUsages, h]
  exact ⟨h1, by simp [assessChangeImpact, h1]⟩

/-- C7, witness: the name `nonexistent` is not indexed in the concrete graph
`cexC1graph`, and both queries return `None` on it. -/
theorem C7_unknown_name_absent_witness :
    (dictGet (createIndexes cexC1graph ctx0).function_usages "nonexistent" = none) ∧
    findAllUsages (createIndexes cexC1graph ctx0) "nonexistent" = none ∧
    assessChangeImpact (createIndexes cexC1graph ctx0) "nonexistent" "" = none := by
  have h := C7_unknown_name_absent (createIndexes cexC1graph ctx0) "nonexistent" ""
    (by decide)
  exact ⟨by decide, h.1, h.2⟩

theorem categorizeUsage_node_id (r : UsageReport) (u : UsageLocation) :
    (categorizeUsage r u).node_id = r.node_id := by
  simp only [categorizeUsage]
  cases u.usage_type <;> split_ifs <;> rfl

theorem foldl_categorize_node_id (us : List UsageLocation) (r : UsageReport) :
    (us.foldl categorizeUsage r).node_id = r.node_id := by
  induction us generalizing r with
  | nil => rfl
  | cons u rest ih => rw [List.foldl_cons, ih, categorizeUsage_node_id]

theorem exportedIdx_foldl_none (l : List (String × GraphNode)) (name : String)
    (acc : List (String × String)) (hacc : dictGet acc name = none)
    (h : ∀ kn ∈ l, kn.2.name = name → kn.2.is_exported = false) :
    dictGet
      (l.foldl
        (fun acc kn =>
          if kn.2.type = NodeType.FUNCTION ∧ kn.2.is_exported then dictSet acc kn.2.name kn.1
          else acc)
        acc) name = none := by
  induction l generalizing acc with
  | nil => exact hacc
  | cons kn rest ih =>
    rw [List.foldl_cons]
    refine ih _ ?_ (fun q hq => h q (List.mem_cons_of_mem _ hq))
    by_cases hc : kn.2.type = NodeType.FUNCTION ∧ kn.2.is_exported
    · have hne : kn.2.name ≠ name := by
        intro heq
        have := h kn (List.mem_cons_self kn rest) heq
        rw [this] at hc
        simp at hc
      rw [if_pos hc, dictGet_set_ne acc kn.1 hne]
      exact hacc
    · rw [if_neg hc]; exact hacc

theorem exportedIdx_none (g : CodeGraph) (name : String)
    (h : ∀ kn ∈ g.nodes, kn.2.name = name → kn.2.is_exported = false) :
    dictGet (buildExportedFunctionsIndex g) name = none :=
  exportedIdx_foldl_none g.nodes name [] rfl h

theorem categorizeUsage_definition (r : UsageReport) (u : UsageLocation) :
    (categorizeUsage r u).definition =
      if u.usage_type = UsageType.DEFINITION then some u else r.definition := by
  cases hu : u.usage_type <;> simp [categorizeUsage, hu] <;> split_ifs <;> rfl

theorem categorizeUsage_exports (r : UsageReport) (u : UsageLocation) :
    (categorizeUsage r u).exports =
      if u.usage_type = UsageType.EXPORT then r.exports ++ [u] else r.exports := by
  cases hu : u.usage_type <;> simp [categorizeUsage, hu] <;> split_ifs <;> rfl

theorem categorizeUsage_imports (r : UsageReport) (u : UsageLocation) :
    (categorizeUsage r u).imports =
      if u.usage_type = UsageType.IMPORT then r.imports ++ [u] else r.imports := by
  cases hu : u.usage_type <;> simp [categorizeUsage, hu] <;> split_ifs <;> rfl

theorem categorizeUsage_calls (r : UsageReport) (u : UsageLocation) :
    (categorizeUsage r u).calls =
      if u.usage_type = UsageType.CALL then r.calls ++ [u] else r.calls := by
  cases hu : u.usage_type <;> simp [categorizeUsage, hu] <;> split_ifs <;> rfl

theorem categorizeUsage_tests (r : UsageReport) (u : UsageLocation) :
    (categorizeUsage r u).tests =
      if u.usage_type = UsageType.TEST then r.tests ++ [u] else r.tests := by
  cases hu : u.usage_type <;> simp [categorizeUsage, hu] <;> split_ifs <;> rfl

theorem foldl_categorize_counts (us : List UsageLocation) (r : UsageReport) :
    (us.foldl categorizeUsage r).exports.length =
      r.exports.length + (us.filter (fun u => u.usage_type = UsageType.EXPORT)).length ∧
    (us.foldl categorizeUsage r).imports.length =
      r.imports.length + (us.filter (fun u => u.usage_type = UsageType.IMPORT)).length ∧
    (us.foldl categorizeUsage r).calls.length =
      r.calls.length + (us.filter (fun u => u.usage_type = UsageType.CALL)).length ∧
    (us.foldl categorizeUsage r).tests.length =
      r.tests.length + (us.filter (fun u => u.usage_type = UsageType.TEST)).length ∧
    (us.foldl categorizeUsage r).definition.isSome =
      (r.definition.isSome || us.any (fun u => u.usage_type = UsageType.DEFINITION)) := by
  induction us generalizing r with
  | nil => simp
  | cons u rest ih =>
    obtain ⟨i1, i2, i3, i4, i5⟩ := ih (categorizeUsage r u)
    simp only [List.foldl_cons, i1, i2, i3, i4, i5, categorizeUsage_definition,
      categorizeUsage_exports, categorizeUsage_imports, categorizeUsage_calls,
      categorizeUsage_tests]
    cases hu : u.usage_type <;>
      simp [hu, List.filter_cons, List.any_cons] <;> omega

theorem usage_partition (us : List UsageLocation) :
    us.length = (us.filter (fun u => u.usage_type = UsageType.DEFINITION)).length +
      (us.filter (fun u => u.usage_type = UsageType.EXPORT)).length +
      (us.filter (fun u => u.usage_type = UsageType.IMPORT)).length +
      (us.filter (fun u => u.usage_type = UsageType.CALL)).length +
      (us.filter (fun u => u.usage_type = UsageType.TEST)).length := by
  induction us with
  | nil => rfl
  | cons u rest ih =>
    cases hu : u.usage_type <;> simp [List.filter_cons, hu, ih] <;> omega

theorem buildNodeUsages_defCount (g : CodeGraph) (ctx : String → Nat → String)
    (nid : String) (n : GraphNode) :
    ((buildNodeUsages g ctx nid n).filter
      (fun u => u.usage_type = UsageType.DEFINITION)).length = 1 := by
  have hrest : ∀ u ∈
      ((g.edges.filter (fun e => e.target_id = nid ∧ e.edge_type = EdgeType.EXPORTS)).map
        (fun e =>
          { usage_type := UsageType.EXPORT, file_path := e.file_path,
            line_number := e.line_number,
            context := ctx e.file_path e.line_number : UsageLocation }) ++
       n.imported_in.flatMap (fun import_file =>
        (g.edges.filter
          (fun e => e.target_id = nid ∧ e.edge_type = EdgeType.IMPORTS ∧
                    e.file_path = import_file)).map
          (fun e =>
            { usage_type := UsageType.IMPORT, file_path := e.file_path,
              line_number := e.line_number,
              context := ctx e.file_path e.line_number : UsageLocation })) ++
       (g.edges.filter (fun e => e.target_id = nid ∧ e.edge_type = EdgeType.CALLS)).map
        (fun e =>
          { usage_type :=
              if strContainsSub (strLower e.file_path) "test" then UsageType.TEST
              else UsageType.CALL
            file_path := e.file_path
            line_number := e.line_number
            context := ctx e.file_path e.line_number
            containing_function := (g.get_node e.source_id).map GraphNode.name :
            UsageLocation })),
      ¬ u.usage_type = UsageType.DEFINITION := by
    intro u hu
    rcases List.mem_append.1 hu with hu | hu
    · rcases List.mem_append.1 hu with hu | hu
      · obtain ⟨e, -, rfl⟩ := List.mem_map.1 hu
        simp
      · obtain ⟨f, -, hf⟩ := List.mem_flatMap.1 hu
        obtain ⟨e, -, rfl⟩ := List.mem_map.1 hf
        simp
    · obtain ⟨e, -, rfl⟩ := List.mem_map.1 hu
      by_cases hc : strContainsSub (strLower e.file_path) "test" = true <;>
        simp [hc]
  show ((_ :: _).filter _).length = 1
  rw [List.filter_cons_of_pos (by simp),
    List.filter_eq_nil_iff.2 (fun u hu => by simpa using hrest u hu)]
  rfl

theorem usageIndex_foldl_defCount (l : List (String × GraphNode)) (g : CodeGraph)
    (ctx : String → Nat → String) (acc : List (String × List UsageLocation))
    (hacc : ∀ k v, dictGet acc k = some v →
      (v.filter (fun u => u.usage_type = UsageType.DEFINITION)).length = 1) :
    ∀ k v, dictGet
      (l.foldl
        (fun acc kn =>
          if kn.2.type = NodeType.FUNCTION then
            let us := buildNodeUsages g ctx kn.1 kn.2
            dictSet (dictSet acc kn.2.name us) kn.1 us
          else acc)
        acc) k = some v →
      (v.filter (fun u => u.usage_type = UsageType.DEFINITION)).length = 1 := by
  induction l generalizing acc with
  | nil => exact hacc
  | cons kn rest ih =>
    rw [List.foldl_cons]
    apply ih
    by_cases hc : kn.2.type = NodeType.FUNCTION
    · rw [if_pos hc]
      exact dictGet_pred (dictGet_pred hacc (buildNodeUsages_defCount g ctx kn.1 kn.2))
        (buildNodeUsages_defCount g ctx kn.1 kn.2)
    · rw [if_neg hc]; exact hacc

theorem usageIndex_defCount (g : CodeGraph) (ctx : String → Nat → String)
    (name : String) (us : List UsageLocation)
    (h : dictGet (buildUsageIndex g ctx) name = some us) :
    (us.filter (fun u => u.usage_type = UsageType.DEFINITION)).length = 1 :=
  usageIndex_foldl_defCount g.nodes g ctx [] (by intro k v hv; simp [dictGet] at hv)
    name us h

/-- C4: for every `UsageReport` returned by `find_all_usages` over the indexes
built by `create_indexes`, `total_usages` equals one for the definition (which
is always present) plus the lengths of the exports, imports, calls and tests
lists. -/
theorem C4_total_usages (g : CodeGraph) (ctx : String → Nat → String)
    (name : String) (report : UsageReport)
    (h : findAllUsages (createIndexes g ctx) name = some report) :
    report.total_usages = (if report.definition.isSome then 1 else 0) +
      report.exports.length + report.imports.length + report.calls.length +
      report.tests.length := by
  cases hus : dictGet (createIndexes g ctx).function_usages name with
  | none => simp only [findAllUsages, hus] at h; exact absurd h (by simp)
  | some us =>
    have hcount : (us.filter (fun u => u.usage_type = UsageType.DEFINITION)).length = 1 :=
      usageIndex_defCount g ctx name us hus
    simp only [findAllUsages, hus] at h
    by_cases hemp : us.isEmpty = true
    · rw [if_pos hemp] at h; exact absurd h (by simp)
    · rw [if_neg hemp] at h
      simp only [Option.some.injEq] at h
      rw [← h]
      obtain ⟨c1, c2, c3, c4, c5⟩ := foldl_categorize_counts us
        { function_name := name
          node_id := (getNodeIdByName (createIndexes g ctx) name).getD "" }
      have hany : us.any (fun u => u.usage_type = UsageType.DEFINITION) = true := by
        have hne : us.filter (fun u => u.usage_type = UsageType.DEFINITION) ≠ [] := by
          intro he; rw [he] at hcount; simp at hcount
        obtain ⟨u, hu⟩ := List.exists_mem_of_ne_nil _ hne
        have hmem := List.mem_filter.1 hu
        exact List.any_eq_true.2 ⟨u, hmem.1, hmem.2⟩
      show us.length = _
      rw [usage_partition us, hcount]
      simp only [c1, c2, c3, c4, c5, hany, Bool.or_true, if_pos rfl]
      simp

/-- C4, witness: the counting law instantiated on the concrete two-node graph
`cexC10graph`. -/
theorem C4_total_usages_witness :
    (findAllUsages (createIndexes cexC10graph ctx0) "f" =
      some ((findAllUsages (createIndexes cexC10graph ctx0) "f").getD emptyUsageReport)) ∧
    ((findAllUsages (createIndexes cexC10graph ctx0) "f").getD
        emptyUsageReport).total_usages =
      (if ((findAllUsages (createIndexes cexC10graph ctx0) "f").getD
          emptyUsageReport).definition.isSome then 1 else 0) +
      ((findAllUsages (createIndexes cexC10graph ctx0) "f").getD
        emptyUsageReport).exports.length +
      ((findAllUsages (createIndexes cexC10graph ctx0) "f").getD
        emptyUsageReport).imports.length +
      ((findAllUsages (createIndexes cexC10graph ctx0) "f").getD
        emptyUsageReport).calls.length +
      ((findAllUsages (createIndexes cexC10graph ctx0) "f").getD
        emptyUsageReport).tests.length :=
  ⟨by decide,
   C4_total_usages cexC10graph ctx0 "f"
     ((findAllUsages (createIndexes cexC10graph ctx0) "f").getD emptyUsageReport)
     (by decide)⟩

theorem add_node_nodes (g : CodeGraph) (n : GraphNode) :
    (g.add_node n).nodes = dictSet g.nodes n.id n := by
  simp only [CodeGraph.add_node]; split_ifs <;> rfl

theorem add_node_edges (g : CodeGraph) (n : GraphNode) :
    (g.add_node n).edges = g.edges := by
  simp only [CodeGraph.add_node]; split_ifs <;> rfl

theorem add_edge_nodes (g : CodeGraph) (e : GraphEdge) :
    (g.add_edge e).nodes = g.nodes := by
  simp only [CodeGraph.add_edge]; split_ifs <;> rfl

theorem add_edge_edges (g : CodeGraph) (e : GraphEdge) :
    (g.add_edge e).edges = g.edges ++ [e] := by
  simp only [CodeGraph.add_edge]; split_ifs <;> rfl

def BuilderInv (st : BuilderState) : Prop :=
  (∀ k id, dictGet st.function_map k = some id →
    (dictGet st.graph.nodes id).isSome) ∧
  (∀ e ∈ st.graph.edges, e.edge_type = EdgeType.CALLS →
    (dictGet st.graph.nodes e.target_id).isSome) ∧
  (∀ k n, dictGet st.graph.nodes k = some n → n.called_by = [])

theorem foldl_inv {α β : Type _} {P : β → Prop} (step : β → α → β)
    (h : ∀ b a, P b → P (step b a)) :
    ∀ (l : List α) (b : β), P b → P (l.foldl step b) := by
  intro l
  induction l with
  | nil => intro b hb; exact hb
  | cons a rest ih => intro b hb; rw [List.foldl_cons]; exact ih _ (h b a hb)

theorem inv_graph_add_node (st : BuilderState) (n : GraphNode)
    (hcb : n.called_by = []) (h : BuilderInv st) :
    BuilderInv { st with graph := st.graph.add_node n } := by
  obtain ⟨h1, h2, h3⟩ := h
  refine ⟨?_, ?_, ?_⟩
  · intro k id hk
    rw [add_node_nodes]
    exact dictGet_set_isSome _ _ _ _ (h1 k id hk)
  · intro e he hc
    rw [add_node_nodes]
    rw [add_node_edges] at he
    exact dictGet_set_isSome _ _ _ _ (h2 e he hc)
  · intro k nn hk
    rw [add_node_nodes] at hk
    exact dictGet_pred h3 hcb k nn hk

theorem inv_graph_add_edge (st : BuilderState) (e : GraphEdge)
    (hlive : e.edge_type = EdgeType.CALLS → (dictGet st.graph.nodes e.target_id).isSome)
    (h : BuilderInv st) : BuilderInv { st with graph := st.graph.add_edge e } := by
  obtain ⟨h1, h2, h3⟩ := h
  refine ⟨?_, ?_, ?_⟩
  · intro k id hk; rw [add_edge_nodes]; exact h1 k id hk
  · intro e1 he1 hc
    rw [add_edge_nodes]
    rw [add_edge_edges] at he1
    rcases List.mem_append.1 he1 with hm | hm
    · exact h2 e1 hm hc
    · rw [List.mem_singleton] at hm; subst hm; exact hlive hc
  · intro k nn hk; rw [add_edge_nodes] at hk; exact h3 k nn hk

theorem inv_createFileNode (st : BuilderState) (pf : ParsedFile) (h : BuilderInv st) :
    BuilderInv { st with graph := createFileNode st.graph pf } := by
  unfold createFileNode
  exact inv_graph_add_node st _ rfl h

theorem inv_addFunctionDef (st : BuilderState) (fd : FunctionDefinition)
    (h : BuilderInv st) : BuilderInv (addFunctionDef st fd) := by
  obtain ⟨h1, h2, h3⟩ := h
  simp only [addFunctionDef]
  refine ⟨?_, ?_, ?_⟩
  · intro k id hk
    simp only at hk
    rw [add_edge_nodes, add_node_nodes]
    rw [dictGet_set] at hk
    by_cases hkn : fd.name = k
    · rw [if_pos hkn] at hk
      cases hk
      have hide : (functionNodeOfDef fd).id = makeFunctionId fd.file_path fd.name := rfl
      rw [← hide, dictGet_set_self]
      rfl
    · rw [if_neg hkn] at hk
      exact dictGet_set_isSome _ _ _ _ (h1 k id hk)
  · intro e he hc
    simp only at he
    rw [add_edge_nodes, add_node_nodes]
    rw [add_edge_edges, add_node_edges] at he
    rcases List.mem_append.1 he with hm | hm
    · exact dictGet_set_isSome _ _ _ _ (h2 e hm hc)
    · rw [List.mem_singleton] at hm
      subst hm
      exact EdgeType.noConfusion hc
  · intro k nn hk
    simp only at hk
    rw [add_edge_nodes, add_node_nodes] at hk
    exact dictGet_pred h3 rfl k nn hk

def callSourceId (call : FunctionCall) : String :=
  match call.calling_function with
  | some cf => makeFunctionId call.file_path cf
  | none => makeFileId call.file_path

def callEdgeOf (call : FunctionCall) (target : String) : GraphEdge :=
  { id := callSourceId call ++ "->calls->" ++ target ++ "@" ++ toString call.line_number
    source_id := callSourceId call
    target_id := target
    edge_type := EdgeType.CALLS
    file_path := call.file_path
    line_number := call.line_number }

theorem inv_addCallEdge (st : BuilderState) (call : FunctionCall)
    (h : BuilderInv st) : BuilderInv (addCallEdge st call) := by
  simp only [addCallEdge]
  split
  · exact h
  next target hres =>
    have hlive : (dictGet st.graph.nodes target).isSome := by
      unfold resolveFunctionId at hres
      by_cases hloc :
          (st.graph.get_node (makeFunctionId call.file_path call.function_name)).isSome
      · rw [if_pos hloc] at hres
        cases hres
        exact hloc
      · rw [if_neg hloc] at hres
        exact h.1 _ _ hres
    split
    · exact h
    · have hinv1 :
          BuilderInv { st with graph := st.graph.add_edge (callEdgeOf call target) } :=
        inv_graph_add_edge st _ (fun _ => hlive) h
      split
      next sn hsn =>
        split
        · exact hinv1
        next hmem =>
          obtain ⟨i1, i2, i3⟩ := hinv1
          have hsncb : sn.called_by = [] := i3 _ sn hsn
          have hupd : ({ sn with calls := sn.calls ++ [target] } : GraphNode).called_by = [] :=
            hsncb
          refine ⟨?_, ?_, ?_⟩
          · intro k id hk
            exact dictGet_set_isSome _ _ _ _ (i1 k id hk)
          · intro e1 he1 hc
            exact dictGet_set_isSome _ _ _ _ (i2 e1 he1 hc)
          · intro k nn hk
            exact dictGet_pred i3 hupd k nn hk
      next hsn => exact hinv1

theorem inv_addImportEdge (st : BuilderState) (file_id : String)
    (imp : ImportStatement) (nm : String) (h : BuilderInv st) :
    BuilderInv (addImportEdge st file_id imp nm) := by
  simp only [addImportEdge]
  cases hres : dictGet st.function_map nm with
  | none => exact h
  | some target =>
    split
    · exact h
    · split
      · exact h
      · refine inv_graph_add_edge st _ (fun hc => ?_) h
        exact absurd hc (by simp)

theorem inv_addExportEdge (st : BuilderState) (pf : ParsedFile)
    (exp : ExportStatement) (nm : String) (h : BuilderInv st) :
    BuilderInv (addExportEdge st pf exp nm) := by
  simp only [addExportEdge]
  split
  · refine inv_graph_add_edge st _ (fun hc => ?_) h
    exact absurd hc (by simp)
  · exact h

theorem inv_createFunctionNodes (st : BuilderState) (pf : ParsedFile)
    (h : BuilderInv st) : BuilderInv (createFunctionNodes st pf) := by
  unfold createFunctionNodes
  exact foldl_inv addFunctionDef inv_addFunctionDef pf.functions st h

theorem inv_createCallEdges (st : BuilderState) (pf : ParsedFile)
    (h : BuilderInv st) : BuilderInv (createCallEdges st pf) := by
  unfold createCallEdges
  exact foldl_inv addCallEdge inv_addCallEdge pf.calls st h

theorem inv_createImportEdges (st : BuilderState) (pf : ParsedFile)
    (h : BuilderInv st) : BuilderInv (createImportEdges st pf) := by
  unfold createImportEdges
  exact foldl_inv _
    (fun st1 imp hst1 =>
      foldl_inv _ (fun st2 nm hst2 => inv_addImportEdge st2 _ imp nm hst2)
        imp.imported_names st1 hst1)
    pf.imports st h

theorem inv_createExportEdges (st : BuilderState) (pf : ParsedFile)
    (h : BuilderInv st) : BuilderInv (createExportEdges st pf) := by
  unfold createExportEdges
  exact foldl_inv _
    (fun st1 exp hst1 =>
      foldl_inv _ (fun st2 nm hst2 => inv_addExportEdge st2 pf exp nm hst2)
        exp.exported_names st1 hst1)
    pf.exports st h

theorem buildPhases_inv (pfs : List ParsedFile) : BuilderInv (buildPhases pfs) := by
  have h0 : BuilderInv ({} : BuilderState) := by
    refine ⟨?_, ?_, ?_⟩
    · intro k id hk; exact absurd hk (by simp [dictGet])
    · intro e he; exact absurd he (List.not_mem_nil e)
    · intro k n hk; exact absurd hk (by simp [dictGet])
  have h1 : BuilderInv ⟨pfs.foldl createFileNode ({} : CodeGraph), []⟩ :=
    foldl_inv (P := fun g => BuilderInv ⟨g, []⟩) createFileNode
      (fun g pf hg => inv_createFileNode ⟨g, []⟩ pf hg) pfs {} h0
  exact foldl_inv createExportEdges inv_createExportEdges pfs _
    (foldl_inv createImportEdges inv_createImportEdges pfs _
      (foldl_inv createCallEdges inv_createCallEdges pfs _
        (foldl_inv createFunctionNodes inv_createFunctionNodes pfs _ h1)))

theorem dictGet_set_isSome_eq (m : List (String × α)) {k : String} {w : α}
    (hk : dictGet m k = some w) (v : α) (k1 : String) :
    (dictGet (dictSet m k v) k1).isSome = (dictGet m k1).isSome := by
  rw [dictGet_set]
  by_cases h : k = k1
  · subst h; simp [hk]
  · simp [h]

theorem reverseStep_isSome (m : List (String × GraphNode)) (e : GraphEdge) (k : String) :
    (dictGet (reverseStep m e) k).isSome = (dictGet m k).isSome := by
  unfold reverseStep
  split
  · split
    next tn hm =>
      split
      · rfl
      · exact dictGet_set_isSome_eq m hm _ k
    next hm => rfl
  · split
    · split
      next tn hm =>
        split
        · rfl
        · exact dictGet_set_isSome_eq m hm _ k
      next hm => rfl
    · rfl

theorem foldl_reverse_isSome (es : List GraphEdge) (m : List (String × GraphNode))
    (k : String) :
    (dictGet (es.foldl reverseStep m) k).isSome = (dictGet m k).isSome := by
  induction es generalizing m with
  | nil => rfl
  | cons e rest ih => rw [List.foldl_cons, ih, reverseStep_isSome]

theorem reverseStep_none (m : List (String × GraphNode)) (e : GraphEdge) (t : String)
    (ht : dictGet m t = none) : dictGet (reverseStep m e) t = none := by
  unfold reverseStep
  split
  · split
    next tn hm =>
      split
      · exact ht
      · rw [dictGet_set]
        by_cases he : e.target_id = t
        · subst he; exact absurd (hm.symm.trans ht) (by simp)
        · rw [if_neg he]; exact ht
    next hm => exact ht
  · split
    · split
      next tn hm =>
        split
        · exact ht
        · rw [dictGet_set]
          by_cases he : e.target_id = t
          · subst he; exact absurd (hm.symm.trans ht) (by simp)
          · rw [if_neg he]; exact ht
      next hm => exact ht
    · exact ht

theorem reverseStep_some (m : List (String × GraphNode)) (e : GraphEdge) (t : String)
    (n0 : GraphNode) (ht : dictGet m t = some n0) :
    ∃ n1, dictGet (reverseStep m e) t = some n1 ∧
      ∀ A, (A ∈ n1.called_by ↔ A ∈ n0.called_by ∨
        (e.edge_type = EdgeType.CALLS ∧ e.source_id = A ∧ e.target_id = t)) := by
  unfold reverseStep
  split
  next hC =>
    split
    next tn hm =>
      split
      next hmem =>
        refine ⟨n0, ht, fun A => ⟨Or.inl, ?_⟩⟩
        rintro (h | ⟨-, hsrc, htg⟩)
        · exact h
        · subst htg
          have hn0 : n0 = tn := Option.some.inj (ht.symm.trans hm)
          subst hn0
          subst hsrc
          exact hmem
      next hmem =>
        by_cases he : e.target_id = t
        · subst he
          have hn0 : n0 = tn := Option.some.inj (ht.symm.trans hm)
          subst hn0
          refine ⟨_, dictGet_set_self _ _ _, fun A => ?_⟩
          constructor
          · intro hA
            rcases List.mem_append.1 hA with h | h
            · exact Or.inl h
            · rw [List.mem_singleton] at h
              exact Or.inr ⟨hC, h.symm, rfl⟩
          · rintro (h | ⟨-, hsrc, -⟩)
            · exact List.mem_append.2 (Or.inl h)
            · exact List.mem_append.2 (Or.inr (List.mem_singleton.2 hsrc.symm))
        · refine ⟨n0, ?_, fun A => ⟨Or.inl, ?_⟩⟩
          · rw [dictGet_set, if_neg he]; exact ht
          · rintro (h | ⟨-, -, htg⟩)
            · exact h
            · exact absurd htg he
    next hm =>
      refine ⟨n0, ht, fun A => ⟨Or.inl, ?_⟩⟩
      rintro (h | ⟨-, -, htg⟩)
      · exact h
      · rw [htg] at hm
        exact absurd (ht.symm.trans hm) (by simp)
  next hC =>
    have hclause : ∀ (A : String),
        ¬(e.edge_type = EdgeType.CALLS ∧ e.source_id = A ∧ e.target_id = t) := by
      rintro A ⟨hc, -, -⟩; exact hC hc
    split
    · split
      next tn hm =>
        split
        next hmem => exact ⟨n0, ht, fun A => ⟨Or.inl, fun h => h.resolve_right (hclause A)⟩⟩
        next hmem =>
          by_cases he : e.target_id = t
          · subst he
            have hn0 : n0 = tn := Option.some.inj (ht.symm.trans hm)
            subst hn0
            exact ⟨_, dictGet_set_self _ _ _, fun A =>
              ⟨Or.inl, fun h => h.resolve_right (hclause A)⟩⟩
          · refine ⟨n0, ?_, fun A => ⟨Or.inl, fun h => h.resolve_right (hclause A)⟩⟩
            rw [dictGet_set, if_neg he]; exact ht
      next hm => exact ⟨n0, ht, fun A => ⟨Or.inl, fun h => h.resolve_right (hclause A)⟩⟩
    · exact ⟨n0, ht, fun A => ⟨Or.inl, fun h => h.resolve_right (hclause A)⟩⟩

theorem reverseStep_spec (m : List (String × GraphNode)) (e : GraphEdge) :
    (∀ t, dictGet m t = none → dictGet (reverseStep m e) t = none) ∧
    (∀ t n0, dictGet m t = some n0 →
      ∃ n1, dictGet (reverseStep m e) t = some n1 ∧
        ∀ A, (A ∈ n1.called_by ↔ A ∈ n0.called_by ∨
          (e.edge_type = EdgeType.CALLS ∧ e.source_id = A ∧ e.target_id = t))) :=
  ⟨reverseStep_none m e, reverseStep_some m e⟩

theorem reverse_foldl_spec (es : List GraphEdge) (m : List (String × GraphNode)) :
    (∀ t, dictGet m t = none → dictGet (es.foldl reverseStep m) t = none) ∧
    (∀ t n0, dictGet m t = some n0 →
      ∃ n, dictGet (es.foldl reverseStep m) t = some n ∧
        ∀ A, (A ∈ n.called_by ↔ A ∈ n0.called_by ∨
          ∃ e ∈ es, e.edge_type = EdgeType.CALLS ∧ e.source_id = A ∧ e.target_id = t)) := by
  induction es generalizing m with
  | nil => exact ⟨fun t ht => ht, fun t n0 ht => ⟨n0, ht, fun A => by simp⟩⟩
  | cons e rest ih =>
    obtain ⟨s1, s2⟩ := reverseStep_spec m e
    obtain ⟨i1, i2⟩ := ih (reverseStep m e)
    constructor
    · intro t ht; rw [List.foldl_cons]; exact i1 t (s1 t ht)
    · intro t n0 ht
      obtain ⟨n1, hn1, hiff1⟩ := s2 t n0 ht
      obtain ⟨n, hn, hiff⟩ := i2 t n1 hn1
      rw [List.foldl_cons]
      refine ⟨n, hn, fun A => ?_⟩
      rw [hiff A, hiff1 A]
      constructor
      · rintro ((h | he) | ⟨e1, he1, hp⟩)
        · exact Or.inl h
        · exact Or.inr ⟨e, List.mem_cons_self e rest, he⟩
        · exact Or.inr ⟨e1, List.mem_cons_of_mem e he1, hp⟩
      · rintro (h | ⟨e1, he1, hp⟩)
        · exact Or.inl (Or.inl h)
        · rcases List.mem_cons.1 he1 with rfl | he1
          · exact Or.inl (Or.inr hp)
          · exact Or.inr ⟨e1, he1, hp⟩

/-- C5: after `build_graph`, for every Calls edge from `A` to `B` the target
node `B` exists and its `called_by` list contains `A`; and conversely `A`
appears in a node's `called_by` only if some Calls edge from `A` to that node
is in the graph's edge list. -/
theorem C5_called_by_correspondence (pfs : List ParsedFile) :
    (∀ e ∈ (buildGraph pfs).edges, e.edge_type = EdgeType.CALLS →
      ∃ n, (buildGraph pfs).get_node e.target_id = some n ∧ e.source_id ∈ n.called_by) ∧
    (∀ t n, (buildGraph pfs).get_node t = some n → ∀ A ∈ n.called_by,
      ∃ e ∈ (buildGraph pfs).edges, e.edge_type = EdgeType.CALLS ∧
        e.source_id = A ∧ e.target_id = t) := by
  obtain ⟨-, h2, h3⟩ := buildPhases_inv pfs
  obtain ⟨r1, r2⟩ :=
    reverse_foldl_spec (buildPhases pfs).graph.edges (buildPhases pfs).graph.nodes
  have hedges : (buildGraph pfs).edges = (buildPhases pfs).graph.edges := rfl
  have hnodes : (buildGraph pfs).nodes =
      (buildPhases pfs).graph.edges.foldl reverseStep (buildPhases pfs).graph.nodes := rfl
  constructor
  · intro e he hc
    have he1 : e ∈ (buildPhases pfs).graph.edges := hedges ▸ he
    obtain ⟨n0, hn0⟩ := Option.isSome_iff_exists.1 (h2 e he1 hc)
    obtain ⟨n, hn, hiff⟩ := r2 e.target_id n0 hn0
    refine ⟨n, ?_, ?_⟩
    · show dictGet (buildGraph pfs).nodes e.target_id = some n
      rw [hnodes]; exact hn
    · exact (hiff e.source_id).2 (Or.inr ⟨e, he1, hc, rfl, rfl⟩)
  · intro t n hget A hA
    have hget1 : dictGet ((buildPhases pfs).graph.edges.foldl reverseStep
        (buildPhases pfs).graph.nodes) t = some n := by
      rw [← hnodes]; exact hget
    cases hm : dictGet (buildPhases pfs).graph.nodes t with
    | none => rw [r1 t hm] at hget1; exact absurd hget1 (by simp)
    | some n0 =>
      obtain ⟨n1, hn1, hiff⟩ := r2 t n0 hm
      have hn1n : n1 = n := Option.some.inj (hn1.symm.trans hget1)
      subst hn1n
      rcases (hiff A).1 hA with h0 | ⟨e, he, hce, hsrc, htg⟩
      · rw [h3 t n0 hm] at h0
        exact absurd h0 (List.not_mem_nil A)
      · exact ⟨e, hedges ▸ he, hce, hsrc, htg⟩

/-- C5, witness: on a concrete file where `f` calls `g`, the Calls edge is in
the edge list and the target node's `called_by` contains the caller. -/
theorem C5_called_by_correspondence_witness :
    (cexC5edge ∈ (buildGraph [cexC5pf]).edges ∧ cexC5edge.edge_type = EdgeType.CALLS) ∧
    (∃ n, (buildGraph [cexC5pf]).get_node cexC5edge.target_id = some n ∧
      cexC5edge.source_id ∈ n.called_by) :=
  ⟨⟨by decide, by decide⟩,
   (C5_called_by_correspondence [cexC5pf]).1 cexC5edge (by decide) (by decide)⟩

/-- C6, counterexample: the claim that every edge's source and target resolve
in the node map fails — a call site recorded inside the enclosing function
`ghost` (which has no function node) produces a Calls edge whose `source_id`
`a:ghost` resolves to no node; the edge is emitted, not dropped. -/
theorem C6_counterexample :
    ∃ e ∈ (buildGraph [cexC6pf]).edges, e.edge_type = EdgeType.CALLS ∧
      (buildGraph [cexC6pf]).get_node e.source_id = none := by decide

/-- C6, amended: after `build_graph`, every Calls edge's `target_id` resolves
to a node in the node map — a call site whose callee cannot be resolved
produces no edge — but the `source_id` of a Calls edge is never checked and
may fail to resolve when the recorded calling function has no node. -/
theorem C6_calls_target_resolves (pfs : List ParsedFile) :
    ∀ e ∈ (buildGraph pfs).edges, e.edge_type = EdgeType.CALLS →
      ((buildGraph pfs).get_node e.target_id).isSome := by
  intro e he hc
  obtain ⟨-, h2, -⟩ := buildPhases_inv pfs
  have hedges : (buildGraph pfs).edges = (buildPhases pfs).graph.edges := rfl
  have hnodes : (buildGraph pfs).nodes =
      (buildPhases pfs).graph.edges.foldl reverseStep (buildPhases pfs).graph.nodes := rfl
  show (dictGet (buildGraph pfs).nodes e.target_id).isSome
  rw [hnodes, foldl_reverse_isSome]
  exact h2 e (hedges ▸ he) hc

/-- C6, witness: the amended theorem instantiated on the concrete parsed file
`cexC6pf` at its Calls edge. -/
theorem C6_calls_target_resolves_witness :
    (cexC6edge ∈ (buildGraph [cexC6pf]).edges ∧ cexC6edge.edge_type = EdgeType.CALLS) ∧
    ((buildGraph [cexC6pf]).get_node cexC6edge.target_id).isSome :=
  ⟨⟨by decide, by decide⟩,
   C6_calls_target_resolves [cexC6pf] cexC6edge (by decide) (by decide)⟩

/-- C10, counterexample: `a:f` is an unexported function named `f`, but the
graph also holds an exported function `b:f` with the same name, so
`find_all_usages "f"` succeeds with `node_id = "b:f"`, not the empty string
the claim requires for the unexported function's name. -/
theorem C10_counterexample :
    cexC10n1.is_exported = false ∧
    ((findAllUsages (createIndexes cexC10graph ctx0) "f").map UsageReport.node_id =
      some "b:f") ∧
    ("b:f" : String) ≠ "" := ⟨by decide, by decide, by decide⟩

/-- C10, amended: for every function name carried only by unexported nodes
(no node of the graph is simultaneously named `name` and exported), a
successful `find_all_usages` call returns a report whose `node_id` is the
empty string, and `get_callers` and `get_calls` return the empty list,
because name-to-node-ID resolution consults only the exported-functions
index. -/
theorem C10_unexported_name_resolution (g : CodeGraph) (ctx : String → Nat → String)
    (name : String) (h : ∀ kn ∈ g.nodes, kn.2.name = name → kn.2.is_exported = false) :
    (∀ report, findAllUsages (createIndexes g ctx) name = some report →
      report.node_id = "") ∧
    getCallers (createIndexes g ctx) name = [] ∧
    getCalls (createIndexes g ctx) name = [] := by
  have hex : dictGet (createIndexes g ctx).exported_functions name = none :=
    exportedIdx_none g name h
  have hid : getNodeIdByName (createIndexes g ctx) name = none := hex
  refine ⟨?_, ?_, ?_⟩
  · intro report hrep
    cases hus : dictGet (createIndexes g ctx).function_usages name with
    | none => simp only [findAllUsages, hus] at hrep; exact absurd hrep (by simp)
    | some us =>
      simp only [findAllUsages, hus] at hrep
      by_cases hemp : us.isEmpty = true
      · rw [if_pos hemp] at hrep; exact absurd hrep (by simp)
      · rw [if_neg hemp] at hrep
        simp only [Option.some.injEq] at hrep
        rw [← hrep]
        show (us.foldl categorizeUsage _).node_id = ""
        rw [foldl_categorize_node_id]
        show (getNodeIdByName (createIndexes g ctx) name).getD "" = ""
        rw [hid]
        rfl
  · unfold getCallers
    rw [hid]
  · unfold getCalls
    rw [hid]

/-- C10, witness: the amended theorem instantiated on a graph whose only node
named `f` is unexported — the returned report's node_id is empty and the
caller/callee queries return empty lists. -/
theorem C10_unexported_name_resolution_witness :
    ((findAllUsages (createIndexes cexC10onlyUnexported ctx0) "f").getD
      emptyUsageReport).node_id = "" ∧
    getCallers (createIndexes cexC10onlyUnexported ctx0) "f" = [] ∧
    getCalls (createIndexes cexC10onlyUnexported ctx0) "f" = [] := by
  have h := C10_unexported_name_resolution cexC10onlyUnexported ctx0 "f" (by decide)
  exact ⟨h.1 ((findAllUsages (createIndexes cexC10onlyUnexported ctx0) "f").getD
    emptyUsageReport) (by decide), h.2.1, h.2.2⟩

def twoFilePfs (p1 p2 : String) (t1 t2 : FileType) (f1 f2 : FunctionDefinition) :
    List ParsedFile :=
  [{ file_path := p1, file_type := t1, functions := [f1], calls := [], imports := [],
     exports := [] },
   { file_path := p2, file_type := t2, functions := [f2], calls := [], imports := [],
     exports := [] }]

def cexC2f1 : FunctionDefinition :=
  { name := "f", file_path := "a/foo.py", line_number := 10, end_line := 12,
    parameters := [], is_exported := true }

def cexC2f2 : FunctionDefinition :=
  { name := "f", file_path := "b/foo.py", line_number := 20, end_line := 22,
    parameters := [], is_exported := true }

def cexC2gh1 : FunctionDefinition :=
  { name := "h", file_path := "a/g1.py", line_number := 1, end_line := 2,
    parameters := [], is_exported := true }

def cexC2gh2 : FunctionDefinition :=
  { name := "h", file_path := "a/g2.py", line_number := 1, end_line := 2,
    parameters := [], is_exported := true }

/-- C2, counterexample: `a/foo.py` and `b/foo.py` both define `f`, producing
the same stable ID `foo:f`; after `build_graph` the node stored under `foo:f`
is the second definition, not the first — the first-registered entry is
replaced, no collision statistic exists, and `total_functions` even counts
both registrations.  Likewise the bare-name table maps `h` to the node of the
later definition `g2:h`, not the first-registered `g1:h`. -/
theorem C2_counterexample :
    ((buildGraph (twoFilePfs "a/foo.py" "b/foo.py" FileType.PYTHON FileType.PYTHON
        cexC2f1 cexC2f2)).get_node "foo:f" = some (functionNodeOfDef cexC2f2)) ∧
    functionNodeOfDef cexC2f2 ≠ functionNodeOfDef cexC2f1 ∧
    ((buildGraph (twoFilePfs "a/foo.py" "b/foo.py" FileType.PYTHON FileType.PYTHON
        cexC2f1 cexC2f2)).total_functions = 2) ∧
    (dictGet (buildGraphState (twoFilePfs "a/g1.py" "a/g2.py" FileType.PYTHON
        FileType.PYTHON cexC2gh1 cexC2gh2)).function_map "h" = some "g2:h") ∧
    ("g2:h" : String) ≠ "g1:h" := by
  refine ⟨by decide, by decide, by decide, by decide, by decide⟩

/-- C2, amended: when two function definitions produce the same stable node ID
(same file stem and function name) or register the same bare name, the
later-registered entry wins — the second definition replaces the first in the
node map and in the global function-name table — and no collision is recorded
anywhere (the `total_functions` statistic still counts both registrations). -/
theorem C2_last_writer_wins (p1 p2 nm : String) (t1 t2 : FileType)
    (f1 f2 : FunctionDefinition)
    (h1 : f1.name = nm) (h2 : f2.name = nm)
    (hf1 : f1.file_path = p1) (hf2 : f2.file_path = p2)
    (hstem : pathStem p1 = pathStem p2) :
    ((buildGraph (twoFilePfs p1 p2 t1 t2 f1 f2)).get_node (makeFunctionId p1 nm) =
      some (functionNodeOfDef f2)) ∧
    (dictGet (buildGraphState (twoFilePfs p1 p2 t1 t2 f1 f2)).function_map nm =
      some (makeFunctionId p2 nm)) ∧
    (buildGraph (twoFilePfs p1 p2 t1 t2 f1 f2)).total_functions = 2 := by
  have hid : makeFunctionId p1 nm = makeFunctionId p2 nm := by
    simp [makeFunctionId, hstem]
  refine ⟨?_, ?_, ?_⟩ <;>
    simp [twoFilePfs, buildGraph, buildGraphState, buildPhases, createFileNode,
      createFunctionNodes, createCallEdges, createImportEdges, createExportEdges,
      buildReverseRelationships, addFunctionDef, functionNodeOfDef, CodeGraph.add_node,
      CodeGraph.add_edge, CodeGraph.get_node, reverseStep, h1, h2, hf1, hf2, hid,
      dictGet_set_self]

/-- C2, witness: the amended theorem instantiated at the two concrete files
`a/foo.py` and `b/foo.py`. -/
theorem C2_last_writer_wins_witness :
    pathStem "a/foo.py" = pathStem "b/foo.py" ∧
    ((buildGraph (twoFilePfs "a/foo.py" "b/foo.py" FileType.PYTHON FileType.PYTHON
        cexC2f1 cexC2f2)).get_node (makeFunctionId "a/foo.py" "f") =
      some (functionNodeOfDef cexC2f2)) :=
  ⟨by decide,
   (C2_last_writer_wins "a/foo.py" "b/foo.py" "f" FileType.PYTHON FileType.PYTHON
      cexC2f1 cexC2f2 rfl rfl rfl rfl (by decide)).1⟩

end ReasonOS
